import Mathlib

/-!
# The `osd` subcommand of rook: `startOSD` (cmd/rook/osd.go)

A shallow embedding of `startOSD`.  The function reads package-level variables
(`cfg`, `osdDataDeviceFilter`, `clusterInfo`, the flag set of `osdCmd`) and calls a
number of functions of other packages.  Here the package-level variables are an
explicit record `Globals`, the called functions are a record `Collaborators` of
functions, and the result of a run records how the run ended, the calls it made in
order, and the final value of `clusterInfo`.
-/

namespace Osd

/-- A Go `error` value.  `Errorf format` is `fmt.Errorf(format)` with no operand,
`ErrorfV format err` is `fmt.Errorf(format, err)` (the formats of `startOSD` have one
`%+v` verb), `MissingConfiguration missing` is the error of the required-flag check. -/
inductive GoError where
  | Errorf (format : String)
  | ErrorfV (format : String) (err : GoError)
  | MissingConfiguration (missing : List String)
  deriving DecidableEq, Repr

/-- The text of `Error()` for an error built by `fmt.Errorf(format)` without operand: the
format itself, as the formats used have no `%` verb.  The text of the other errors depends
on code that is not part of `startOSD`. -/
def GoError.message : GoError → Option String
  | .Errorf format => some format
  | .ErrorfV _ _ => none
  | .MissingConfiguration _ => none

/-- The fields of `osd.StoreConfig` that `addOSDFlags` binds. -/
structure StoreConfig where
  WalSizeMB : Int
  DatabaseSizeMB : Int
  JournalSizeMB : Int
  StoreType : String
  deriving DecidableEq, Repr

/-- The fields of the package-level `cfg` that `startOSD` reads. -/
structure Config where
  devices : String
  directories : String
  metadataDevice : String
  location : String
  forceFormat : Bool
  nodeName : String
  monEndpoints : String
  storeConfig : StoreConfig
  deriving DecidableEq, Repr

/-- The fields of `mon.ClusterInfo` that `startOSD` touches.  The type of `Monitors` is
the result type of `mon.ParseMonEndpoints`, a parameter. -/
structure ClusterInfo (Monitors : Type) where
  Name : String
  Monitors : Monitors
  deriving DecidableEq, Repr

/-- The package-level variables `startOSD` reads: `cfg`, `osdDataDeviceFilter`,
`clusterInfo`, and the string values of the flags of `osdCmd` by name. -/
structure Globals (Monitors : Type) where
  osdCmdFlags : String → String
  cfg : Config
  osdDataDeviceFilter : String
  clusterInfo : ClusterInfo Monitors

/-- The `clusterd.Context` that `createContext` returns: the two fields `startOSD`
assigns, and the rest of it. -/
structure Context (Clientset RookClientset Rest : Type) where
  Clientset : Clientset
  RookClientset : RookClientset
  rest : Rest
  deriving DecidableEq, Repr

/-- The arguments of `osd.NewAgent`, in the order of its call in `startOSD`.  The ninth
argument is `&clusterInfo`; its value at the time of the call is recorded. -/
structure AgentArgs (Clientset RookClientset Rest Monitors KVStore : Type) where
  context : Context Clientset RookClientset Rest
  dataDevices : String
  usingDeviceFilter : Bool
  metadataDevice : String
  directories : String
  forceFormat : Bool
  crushLocation : String
  storeConfig : StoreConfig
  clusterInfo : ClusterInfo Monitors
  nodeName : String
  kv : KVStore
  deriving DecidableEq, Repr

/-- The functions of other packages that `startOSD` calls, by their arguments and results.
`getClientset` returns four values of which `startOSD` keeps the first, the third and
the error. -/
structure Collaborators (Clientset RookClientset Rest Monitors KVStore Agent : Type) where
  VerifyRequiredFlags : (String → String) → List String → Option GoError
  getClientset : Except GoError (Clientset × RookClientset)
  createContext : Context Clientset RookClientset Rest
  NewConfigMapKVStore : String → Clientset → KVStore
  FormatLocation : String → String → Except GoError (List String)
  ParseMonEndpoints : String → Monitors
  NewAgent : AgentArgs Clientset RookClientset Rest Monitors KVStore → Agent
  Run : Context Clientset RookClientset Rest → Agent → Option GoError

/-- One call made by `startOSD`, with its arguments. -/
inductive Call (Clientset RookClientset Rest Monitors KVStore Agent : Type) where
  | VerifyRequiredFlags (required : List String)
  | setLogLevel
  | logStartupInfo
  | getClientset
  | createContext
  | NewConfigMapKVStore (name : String) (clientset : Clientset)
  | FormatLocation (location nodeName : String)
  | ParseMonEndpoints (monEndpoints : String)
  | NewAgent (args : AgentArgs Clientset RookClientset Rest Monitors KVStore)
  | Run (context : Context Clientset RookClientset Rest) (agent : Agent)
  deriving DecidableEq, Repr

/-- How a run of `startOSD` ends: it returns an error value (`none` is `nil`), or the
process is terminated by `terminateFatal`. -/
inductive Outcome where
  | returned (err : Option GoError)
  | fatal (reason : GoError)
  deriving DecidableEq, Repr

/-- A run of `startOSD`: how it ended, the calls made in order, and `clusterInfo` at the
end. -/
structure Result (Clientset RookClientset Rest Monitors KVStore Agent : Type) where
  outcome : Outcome
  calls : List (Call Clientset RookClientset Rest Monitors KVStore Agent)
  clusterInfo : ClusterInfo Monitors
  deriving DecidableEq

/-- Modelled from the spec: `terminateFatal` (package main, not in src/), "any error ... is
treated as fatal: it is reported and the process terminates with non-zero status".  The
call does not return; the run ends with the calls made so far. -/
def terminateFatal {Clientset RookClientset Rest Monitors KVStore Agent : Type}
    (reason : GoError)
    (calls : List (Call Clientset RookClientset Rest Monitors KVStore Agent))
    (clusterInfo : ClusterInfo Monitors) :
    Result Clientset RookClientset Rest Monitors KVStore Agent :=
  { outcome := .fatal reason, calls := calls, clusterInfo := clusterInfo }

/-- Go's `strings.Join(elems, sep)`: the empty string for no element, the element for one,
and otherwise the first element followed by `sep` and an element for each of the rest. -/
def strings.Join (elems : List String) (sep : String) : String :=
  match elems with
  | [] => ""
  | [e] => e
  | e :: rest => rest.foldl (fun b s => b ++ sep ++ s) e

/-- The local `required` of `startOSD`. -/
def required : List String :=
  ["cluster-name", "mon-endpoints", "mon-secret", "admin-secret", "node-name",
   "public-ipv4", "private-ipv4"]

/-- The error of the conflict branch of `startOSD`. -/
def conflictError : GoError :=
  .Errorf "Only one of --data-devices and --data-device-filter can be specified."

section
variable {Clientset RookClientset Rest Monitors KVStore Agent : Type}

/-- The function `startOSD` of cmd/rook/osd.go. -/
def startOSD (c : Collaborators Clientset RookClientset Rest Monitors KVStore Agent)
    (g : Globals Monitors) : Result Clientset RookClientset Rest Monitors KVStore Agent :=
  let calls := [Call.VerifyRequiredFlags required]
  match c.VerifyRequiredFlags g.osdCmdFlags required with
  | some err => { outcome := .returned (some err), calls := calls, clusterInfo := g.clusterInfo }
  | none =>
    -- var dataDevices string; var usingDeviceFilter bool
    let resolved : Except GoError (String × Bool) :=
      if g.osdDataDeviceFilter ≠ "" then
        if g.cfg.devices ≠ "" then
          .error conflictError
        else
          .ok (g.osdDataDeviceFilter, true)
      else
        .ok (g.cfg.devices, false)
    match resolved with
    | .error err => { outcome := .returned (some err), calls := calls, clusterInfo := g.clusterInfo }
    | .ok (dataDevices, usingDeviceFilter) =>
      let calls := calls ++ [.setLogLevel, .logStartupInfo, .getClientset]
      match c.getClientset with
      | .error err =>
        terminateFatal (.ErrorfV "failed to init k8s client. %+v\n" err) calls g.clusterInfo
      | .ok (clientset, rookClientset) =>
        let context := c.createContext
        let context := { context with Clientset := clientset }
        let context := { context with RookClientset := rookClientset }
        let kv := c.NewConfigMapKVStore g.clusterInfo.Name clientset
        let calls := calls ++ [.createContext, .NewConfigMapKVStore g.clusterInfo.Name clientset,
          .FormatLocation g.cfg.location g.cfg.nodeName]
        match c.FormatLocation g.cfg.location g.cfg.nodeName with
        | .error err => terminateFatal (.ErrorfV "invalid location. %+v\n" err) calls g.clusterInfo
        | .ok locArgs =>
          let crushLocation := strings.Join locArgs " "
          let forceFormat := false
          let clusterInfo := { g.clusterInfo with Monitors := c.ParseMonEndpoints g.cfg.monEndpoints }
          let args : AgentArgs Clientset RookClientset Rest Monitors KVStore :=
            { context := context, dataDevices := dataDevices,
              usingDeviceFilter := usingDeviceFilter, metadataDevice := g.cfg.metadataDevice,
              directories := g.cfg.directories, forceFormat := forceFormat,
              crushLocation := crushLocation, storeConfig := g.cfg.storeConfig,
              clusterInfo := clusterInfo, nodeName := g.cfg.nodeName, kv := kv }
          let agent := c.NewAgent args
          let calls := calls ++ [.ParseMonEndpoints g.cfg.monEndpoints, .NewAgent args,
            .Run context agent]
          match c.Run context agent with
          | some err => terminateFatal err calls clusterInfo
          | none => { outcome := .returned none, calls := calls, clusterInfo := clusterInfo }

/-- The argument lists of the calls of `osd.NewAgent` among `calls`, in order. -/
def newAgentCalls (calls : List (Call Clientset RookClientset Rest Monitors KVStore Agent)) :
    List (AgentArgs Clientset RookClientset Rest Monitors KVStore) :=
  calls.filterMap fun call =>
    match call with
    | .NewAgent args => some args
    | _ => none

/-- The arguments of the calls of `osd.Run` among `calls`, in order. -/
def runCalls (calls : List (Call Clientset RookClientset Rest Monitors KVStore Agent)) :
    List (Context Clientset RookClientset Rest × Agent) :=
  calls.filterMap fun call =>
    match call with
    | .Run context agent => some (context, agent)
    | _ => none

end

/-- Modelled from the spec: `flags.VerifyRequiredFlags` (package pkg/util/flags, not in
src/), "fails with a MissingConfiguration error naming every absent required field if one
or more required fields are empty; succeeds silently otherwise". -/
def VerifyRequiredFlags (flagValue : String → String) (requiredFlags : List String) :
    Option GoError :=
  match requiredFlags.filter (fun name => flagValue name = "") with
  | [] => none
  | missing => some (.MissingConfiguration missing)

/-- The spec's words for the placement string, "the tokens are joined with single-space
separators": nothing for no token, the token for one, and otherwise the first token, one
space, and the rest joined in the same way. -/
def joinedWithSingleSpaces : List String → String
  | [] => ""
  | [token] => token
  | token :: rest => token ++ " " ++ joinedWithSingleSpaces rest

/-! ## Concrete runs -/

/-- A flag set in which all seven required flags have a value. -/
def allFlagsSet : String → String
  | "cluster-name" => "rook"
  | "mon-endpoints" => "a=10.0.0.1:6789"
  | "mon-secret" => "monsecret"
  | "admin-secret" => "adminsecret"
  | "node-name" => "node1"
  | "public-ipv4" => "10.0.0.7"
  | "private-ipv4" => "10.0.0.7"
  | _ => ""

/-- The flag set `allFlagsSet` with `mon-secret` and `public-ipv4` omitted. -/
def twoFlagsMissing : String → String
  | "mon-secret" => ""
  | "public-ipv4" => ""
  | name => allFlagsSet name

/-- The flag set `allFlagsSet` with `--mon-endpoints abc`. -/
def monEndpointsAbc : String → String
  | "mon-endpoints" => "abc"
  | name => allFlagsSet name

/-- The package-level variables after flag parsing, for the string flags `flags` and the
given values of `--data-devices`, `--data-device-filter` and `--force-format`, with
`--location region=us-east`.  `cfg.nodeName` and `cfg.monEndpoints` are the variables
bound to `--node-name` and `--mon-endpoints`. -/
def globalsOf (flags : String → String) (devices filter : String) (forceFormat : Bool) :
    Globals (List String) where
  osdCmdFlags := flags
  cfg := { devices := devices, directories := "", metadataDevice := "",
           location := "region=us-east", forceFormat := forceFormat,
           nodeName := flags "node-name", monEndpoints := flags "mon-endpoints",
           storeConfig := { WalSizeMB := 576, DatabaseSizeMB := 20480, JournalSizeMB := 5120,
                            StoreType := "bluestore" } }
  osdDataDeviceFilter := filter
  clusterInfo := { Name := flags "cluster-name", Monitors := [] }

/-- Collaborators for concrete runs.  The required-flag check is the one modelled from the
spec; the client-set provider, the location formatter and `osd.Run` give the results
passed in; the monitor parser yields one monitor for the endpoint string of `allFlagsSet`
and none for any other string (such as `abc`, which names no monitor); the agent is represented by its arguments. -/
def collaboratorsOf (clientset : Except GoError (String × String))
    (locArgs : Except GoError (List String)) (runResult : Option GoError) :
    Collaborators String String Unit (List String) String
      (AgentArgs String String Unit (List String) String) where
  VerifyRequiredFlags := VerifyRequiredFlags
  getClientset := clientset
  createContext := { Clientset := "", RookClientset := "", rest := () }
  NewConfigMapKVStore := fun name _ => name
  FormatLocation := fun _ _ => locArgs
  ParseMonEndpoints := fun s => if s = "a=10.0.0.1:6789" then ["a=10.0.0.1:6789"] else []
  NewAgent := fun args => args
  Run := fun _ _ => runResult

/-- Collaborators that all succeed. -/
def okCollaborators : Collaborators String String Unit (List String) String
    (AgentArgs String String Unit (List String) String) :=
  collaboratorsOf (.ok ("clientset", "rookClientset"))
    (.ok ["region=us-east", "host=node1", "root=default"]) none

section
variable {Clientset RookClientset Rest Monitors KVStore Agent : Type}

/-! ## The paths of `startOSD` -/

theorem startOSD_required_failed
    (c : Collaborators Clientset RookClientset Rest Monitors KVStore Agent)
    (g : Globals Monitors) (err : GoError)
    (hreq : c.VerifyRequiredFlags g.osdCmdFlags required = some err) :
    startOSD c g = { outcome := .returned (some err),
                     calls := [Call.VerifyRequiredFlags required],
                     clusterInfo := g.clusterInfo } := by
  simp [startOSD, hreq]

theorem startOSD_conflict
    (c : Collaborators Clientset RookClientset Rest Monitors KVStore Agent)
    (g : Globals Monitors)
    (hreq : c.VerifyRequiredFlags g.osdCmdFlags required = none)
    (hf : g.osdDataDeviceFilter ≠ "") (hd : g.cfg.devices ≠ "") :
    startOSD c g = { outcome := .returned (some conflictError),
                     calls := [Call.VerifyRequiredFlags required],
                     clusterInfo := g.clusterInfo } := by
  simp [startOSD, hreq, hf, hd]

theorem startOSD_clientset_failed
    (c : Collaborators Clientset RookClientset Rest Monitors KVStore Agent)
    (g : Globals Monitors) (err : GoError)
    (hreq : c.VerifyRequiredFlags g.osdCmdFlags required = none)
    (hsel : g.osdDataDeviceFilter = "" ∨ g.cfg.devices = "")
    (hcs : c.getClientset = .error err) :
    startOSD c g = { outcome := .fatal (.ErrorfV "failed to init k8s client. %+v\n" err),
                     calls := [Call.VerifyRequiredFlags required, .setLogLevel,
                               .logStartupInfo, .getClientset],
                     clusterInfo := g.clusterInfo } := by
  rcases hsel with h | h <;> by_cases hf : g.osdDataDeviceFilter = "" <;>
    simp [startOSD, hreq, hcs, terminateFatal, h, hf]

theorem startOSD_location_failed
    (c : Collaborators Clientset RookClientset Rest Monitors KVStore Agent)
    (g : Globals Monitors) (clientset : Clientset) (rookClientset : RookClientset)
    (err : GoError)
    (hreq : c.VerifyRequiredFlags g.osdCmdFlags required = none)
    (hsel : g.osdDataDeviceFilter = "" ∨ g.cfg.devices = "")
    (hcs : c.getClientset = .ok (clientset, rookClientset))
    (hloc : c.FormatLocation g.cfg.location g.cfg.nodeName = .error err) :
    startOSD c g = { outcome := .fatal (.ErrorfV "invalid location. %+v\n" err),
                     calls := [Call.VerifyRequiredFlags required, .setLogLevel,
                               .logStartupInfo, .getClientset, .createContext,
                               .NewConfigMapKVStore g.clusterInfo.Name clientset,
                               .FormatLocation g.cfg.location g.cfg.nodeName],
                     clusterInfo := g.clusterInfo } := by
  rcases hsel with h | h <;> by_cases hf : g.osdDataDeviceFilter = "" <;>
    simp [startOSD, hreq, hcs, hloc, terminateFatal, h, hf]

/-- When the required-flag check, device resolution, the client-set provider and the
location formatter succeed, `startOSD` builds the agent from the arguments below, runs it,
and ends as `osd.Run` tells. -/
theorem startOSD_proceeds
    (c : Collaborators Clientset RookClientset Rest Monitors KVStore Agent)
    (g : Globals Monitors) (clientset : Clientset) (rookClientset : RookClientset)
    (locArgs : List String)
    (hreq : c.VerifyRequiredFlags g.osdCmdFlags required = none)
    (hsel : g.osdDataDeviceFilter = "" ∨ g.cfg.devices = "")
    (hcs : c.getClientset = .ok (clientset, rookClientset))
    (hloc : c.FormatLocation g.cfg.location g.cfg.nodeName = .ok locArgs) :
    ∃ args : AgentArgs Clientset RookClientset Rest Monitors KVStore,
      args.context = { Clientset := clientset, RookClientset := rookClientset,
                       rest := c.createContext.rest } ∧
      args.dataDevices
        = (if g.osdDataDeviceFilter = "" then g.cfg.devices else g.osdDataDeviceFilter) ∧
      args.usingDeviceFilter = (if g.osdDataDeviceFilter = "" then false else true) ∧
      args.metadataDevice = g.cfg.metadataDevice ∧
      args.directories = g.cfg.directories ∧
      args.forceFormat = false ∧
      args.crushLocation = strings.Join locArgs " " ∧
      args.storeConfig = g.cfg.storeConfig ∧
      args.clusterInfo = { Name := g.clusterInfo.Name,
                           Monitors := c.ParseMonEndpoints g.cfg.monEndpoints } ∧
      args.nodeName = g.cfg.nodeName ∧
      args.kv = c.NewConfigMapKVStore g.clusterInfo.Name clientset ∧
      (startOSD c g).calls
        = [Call.VerifyRequiredFlags required, .setLogLevel, .logStartupInfo, .getClientset,
           .createContext, .NewConfigMapKVStore g.clusterInfo.Name clientset,
           .FormatLocation g.cfg.location g.cfg.nodeName,
           .ParseMonEndpoints g.cfg.monEndpoints, .NewAgent args,
           .Run args.context (c.NewAgent args)] ∧
      (startOSD c g).clusterInfo = args.clusterInfo ∧
      (startOSD c g).outcome
        = (match c.Run args.context (c.NewAgent args) with
           | some err => Outcome.fatal err
           | none => Outcome.returned none) := by
  refine ⟨{ context := { Clientset := clientset, RookClientset := rookClientset,
                         rest := c.createContext.rest },
            dataDevices := if g.osdDataDeviceFilter = "" then g.cfg.devices
                           else g.osdDataDeviceFilter,
            usingDeviceFilter := if g.osdDataDeviceFilter = "" then false else true,
            metadataDevice := g.cfg.metadataDevice, directories := g.cfg.directories,
            forceFormat := false, crushLocation := strings.Join locArgs " ",
            storeConfig := g.cfg.storeConfig,
            clusterInfo := { Name := g.clusterInfo.Name,
                             Monitors := c.ParseMonEndpoints g.cfg.monEndpoints },
            nodeName := g.cfg.nodeName,
            kv := c.NewConfigMapKVStore g.clusterInfo.Name clientset },
          rfl, rfl, rfl, rfl, rfl, rfl, rfl, rfl, rfl, rfl, rfl, ?_⟩
  rcases hsel with h | h <;> by_cases hf : g.osdDataDeviceFilter = "" <;>
    simp [startOSD, hreq, hcs, hloc, terminateFatal, h, hf] <;>
    split <;> simp_all

/-- Every run of `startOSD` ends on one of four paths: before `setLogLevel`, at the
client-set provider, at the location formatter, or after `osd.Run`. -/
theorem startOSD_paths
    (c : Collaborators Clientset RookClientset Rest Monitors KVStore Agent)
    (g : Globals Monitors) :
    ((startOSD c g).calls = [Call.VerifyRequiredFlags required] ∧
      (startOSD c g).clusterInfo = g.clusterInfo ∧
      ∃ err, (startOSD c g).outcome = .returned (some err)) ∨
    (c.VerifyRequiredFlags g.osdCmdFlags required = none ∧
      (g.osdDataDeviceFilter = "" ∨ g.cfg.devices = "") ∧
      ((∃ err, c.getClientset = .error err) ∨
       (∃ clientset rookClientset, c.getClientset = .ok (clientset, rookClientset) ∧
          ((∃ err, c.FormatLocation g.cfg.location g.cfg.nodeName = .error err) ∨
           (∃ locArgs, c.FormatLocation g.cfg.location g.cfg.nodeName = .ok locArgs))))) := by
  cases hreq : c.VerifyRequiredFlags g.osdCmdFlags required with
  | some err =>
    left
    rw [startOSD_required_failed c g err hreq]
    exact ⟨rfl, rfl, err, rfl⟩
  | none =>
    by_cases hf : g.osdDataDeviceFilter = ""
    · right
      refine ⟨rfl, Or.inl hf, ?_⟩
      cases hcs : c.getClientset with
      | error err => exact Or.inl ⟨err, rfl⟩
      | ok p =>
        right
        refine ⟨p.1, p.2, rfl, ?_⟩
        cases hloc : c.FormatLocation g.cfg.location g.cfg.nodeName with
        | error err => exact Or.inl ⟨err, rfl⟩
        | ok locArgs => exact Or.inr ⟨locArgs, rfl⟩
    · by_cases hd : g.cfg.devices = ""
      · right
        refine ⟨rfl, Or.inr hd, ?_⟩
        cases hcs : c.getClientset with
        | error err => exact Or.inl ⟨err, rfl⟩
        | ok p =>
          right
          refine ⟨p.1, p.2, rfl, ?_⟩
          cases hloc : c.FormatLocation g.cfg.location g.cfg.nodeName with
          | error err => exact Or.inl ⟨err, rfl⟩
          | ok locArgs => exact Or.inr ⟨locArgs, rfl⟩
      · left
        rw [startOSD_conflict c g hreq hf hd]
        exact ⟨rfl, rfl, conflictError, rfl⟩

/-- Once the required-flag check and device resolution have succeeded, `startOSD` does not
return an error: it returns `nil` or the process is terminated. -/
theorem startOSD_no_error_returned
    (c : Collaborators Clientset RookClientset Rest Monitors KVStore Agent)
    (g : Globals Monitors)
    (hreq : c.VerifyRequiredFlags g.osdCmdFlags required = none)
    (hsel : g.osdDataDeviceFilter = "" ∨ g.cfg.devices = "") (err : GoError) :
    (startOSD c g).outcome ≠ .returned (some err) := by
  cases hcs : c.getClientset with
  | error e => rw [startOSD_clientset_failed c g e hreq hsel hcs]; simp
  | ok p =>
    cases hloc : c.FormatLocation g.cfg.location g.cfg.nodeName with
    | error e => rw [startOSD_location_failed c g p.1 p.2 e hreq hsel hcs hloc]; simp
    | ok locArgs =>
      obtain ⟨args, -, -, -, -, -, -, -, -, -, -, -, -, -, hout⟩ :=
        startOSD_proceeds c g p.1 p.2 locArgs hreq hsel hcs hloc
      rw [hout]
      split <;> simp

/-! ## Device resolution -/

/-- C1.  Once the required-flag check has passed, `startOSD` returns an error if and only
if both `cfg.devices` and `osdDataDeviceFilter` are non-empty; the error is then the same
conflict error whatever the two strings hold, and when at least one of them is empty no
error is returned. -/
theorem startOSD_conflict_iff
    (c : Collaborators Clientset RookClientset Rest Monitors KVStore Agent)
    (g : Globals Monitors)
    (hreq : c.VerifyRequiredFlags g.osdCmdFlags required = none) :
    ((∃ err, (startOSD c g).outcome = .returned (some err))
      ↔ (g.cfg.devices ≠ "" ∧ g.osdDataDeviceFilter ≠ "")) ∧
    ((g.cfg.devices ≠ "" ∧ g.osdDataDeviceFilter ≠ "") →
      (startOSD c g).outcome = .returned (some conflictError)) ∧
    ((g.cfg.devices = "" ∨ g.osdDataDeviceFilter = "") →
      ∀ err, (startOSD c g).outcome ≠ .returned (some err)) := by
  have hboth : (g.cfg.devices ≠ "" ∧ g.osdDataDeviceFilter ≠ "") →
      (startOSD c g).outcome = .returned (some conflictError) := by
    rintro ⟨hd, hf⟩
    rw [startOSD_conflict c g hreq hf hd]
  have hone : (g.cfg.devices = "" ∨ g.osdDataDeviceFilter = "") →
      ∀ err, (startOSD c g).outcome ≠ .returned (some err) := fun h err =>
    startOSD_no_error_returned c g hreq h.symm err
  refine ⟨⟨?_, fun h => ⟨conflictError, hboth h⟩⟩, hboth, hone⟩
  rintro ⟨err, herr⟩
  by_contra hno
  have h : g.cfg.devices = "" ∨ g.osdDataDeviceFilter = "" := by
    by_cases hd : g.cfg.devices = ""
    · exact Or.inl hd
    · by_cases hf : g.osdDataDeviceFilter = ""
      · exact Or.inr hf
      · exact absurd ⟨hd, hf⟩ hno
  exact hone h err herr

/-- C1 at `--data-devices /dev/sdb --data-device-filter sd.*` with all required flags
set. -/
theorem startOSD_conflict_iff_witness :
    ((∃ err, (startOSD okCollaborators (globalsOf allFlagsSet "/dev/sdb" "sd.*" false)).outcome
        = .returned (some err))
      ↔ ((globalsOf allFlagsSet "/dev/sdb" "sd.*" false).cfg.devices ≠ "" ∧
         (globalsOf allFlagsSet "/dev/sdb" "sd.*" false).osdDataDeviceFilter ≠ "")) ∧
    (((globalsOf allFlagsSet "/dev/sdb" "sd.*" false).cfg.devices ≠ "" ∧
      (globalsOf allFlagsSet "/dev/sdb" "sd.*" false).osdDataDeviceFilter ≠ "") →
      (startOSD okCollaborators (globalsOf allFlagsSet "/dev/sdb" "sd.*" false)).outcome
        = .returned (some conflictError)) ∧
    (((globalsOf allFlagsSet "/dev/sdb" "sd.*" false).cfg.devices = "" ∨
      (globalsOf allFlagsSet "/dev/sdb" "sd.*" false).osdDataDeviceFilter = "") →
      ∀ err, (startOSD okCollaborators (globalsOf allFlagsSet "/dev/sdb" "sd.*" false)).outcome
        ≠ .returned (some err)) :=
  startOSD_conflict_iff okCollaborators (globalsOf allFlagsSet "/dev/sdb" "sd.*" false)
    (by decide)

/-- C5.  When `startOSD` fails on a missing required flag or on the conflict of
`--data-devices` with `--data-device-filter`, the only call it has made is the
required-flag check, `clusterInfo` is as before, and neither `osd.NewAgent` nor `osd.Run`
was invoked. -/
theorem startOSD_early_failure_no_effect
    (c : Collaborators Clientset RookClientset Rest Monitors KVStore Agent)
    (g : Globals Monitors)
    (hfail : (∃ err, c.VerifyRequiredFlags g.osdCmdFlags required = some err) ∨
      (g.cfg.devices ≠ "" ∧ g.osdDataDeviceFilter ≠ "")) :
    (startOSD c g).calls = [Call.VerifyRequiredFlags required] ∧
    (startOSD c g).clusterInfo = g.clusterInfo ∧
    (∃ err, (startOSD c g).outcome = .returned (some err)) ∧
    newAgentCalls (startOSD c g).calls = [] ∧
    runCalls (startOSD c g).calls = [] := by
  have hres : ∃ err, startOSD c g =
      { outcome := .returned (some err), calls := [Call.VerifyRequiredFlags required],
        clusterInfo := g.clusterInfo } := by
    cases hreq : c.VerifyRequiredFlags g.osdCmdFlags required with
    | some err => exact ⟨err, startOSD_required_failed c g err hreq⟩
    | none =>
      rcases hfail with ⟨err, herr⟩ | ⟨hd, hf⟩
      · rw [hreq] at herr; cases herr
      · exact ⟨conflictError, startOSD_conflict c g hreq hf hd⟩
  obtain ⟨err, herr⟩ := hres
  rw [herr]
  exact ⟨rfl, rfl, ⟨err, rfl⟩, rfl, rfl⟩

/-- C5 at a flag set with `mon-secret` and `public-ipv4` missing. -/
theorem startOSD_early_failure_no_effect_witness :
    (startOSD okCollaborators (globalsOf twoFlagsMissing "/dev/sdb" "" false)).calls
      = [Call.VerifyRequiredFlags required] ∧
    (startOSD okCollaborators (globalsOf twoFlagsMissing "/dev/sdb" "" false)).clusterInfo
      = (globalsOf twoFlagsMissing "/dev/sdb" "" false).clusterInfo ∧
    (∃ err, (startOSD okCollaborators (globalsOf twoFlagsMissing "/dev/sdb" "" false)).outcome
      = .returned (some err)) ∧
    newAgentCalls (startOSD okCollaborators (globalsOf twoFlagsMissing "/dev/sdb" "" false)).calls
      = [] ∧
    runCalls (startOSD okCollaborators (globalsOf twoFlagsMissing "/dev/sdb" "" false)).calls
      = [] :=
  startOSD_early_failure_no_effect okCollaborators (globalsOf twoFlagsMissing "/dev/sdb" "" false)
    (Or.inl ⟨.MissingConfiguration ["mon-secret", "public-ipv4"], by decide⟩)

/-- C9, as stated, fails: at `--data-devices /dev/sdb --data-device-filter sd.*` with all
required flags set, the error `startOSD` returns does not carry the message "only one of
data-devices and data-device-filter may be specified". -/
theorem conflict_message_not_as_claimed :
    ∃ err, (startOSD okCollaborators (globalsOf allFlagsSet "/dev/sdb" "sd.*" false)).outcome
        = .returned (some err) ∧
      err.message ≠ some "only one of data-devices and data-device-filter may be specified" :=
  ⟨conflictError, by decide, by decide⟩

/-- C9, amended.  When the required-flag check has passed and both `--data-devices` and
`--data-device-filter` are non-empty, the error `startOSD` returns carries the message
"Only one of --data-devices and --data-device-filter can be specified.". -/
theorem startOSD_conflict_message
    (c : Collaborators Clientset RookClientset Rest Monitors KVStore Agent)
    (g : Globals Monitors)
    (hreq : c.VerifyRequiredFlags g.osdCmdFlags required = none)
    (hd : g.cfg.devices ≠ "") (hf : g.osdDataDeviceFilter ≠ "") :
    ∃ err, (startOSD c g).outcome = .returned (some err) ∧
      err.message
        = some "Only one of --data-devices and --data-device-filter can be specified." := by
  refine ⟨conflictError, ?_, rfl⟩
  rw [startOSD_conflict c g hreq hf hd]

/-- C9, amended, at `--data-devices /dev/sdc --data-device-filter all`. -/
theorem startOSD_conflict_message_witness :
    ∃ err, (startOSD okCollaborators (globalsOf allFlagsSet "/dev/sdc" "all" true)).outcome
        = .returned (some err) ∧
      err.message
        = some "Only one of --data-devices and --data-device-filter can be specified." :=
  startOSD_conflict_message okCollaborators (globalsOf allFlagsSet "/dev/sdc" "all" true)
    (by decide) (by decide) (by decide)

/-- C2.  With a non-empty filter and an empty `--data-devices`, once the required-flag
check has passed: `startOSD` returns no error, every call of `osd.NewAgent` gets the filter
string unchanged as `dataDevices` with `usingDeviceFilter = true`, and when the client-set
provider and the location formatter succeed there is exactly one such call. -/
theorem startOSD_filter_mode
    (c : Collaborators Clientset RookClientset Rest Monitors KVStore Agent)
    (g : Globals Monitors)
    (hreq : c.VerifyRequiredFlags g.osdCmdFlags required = none)
    (hf : g.osdDataDeviceFilter ≠ "") (hd : g.cfg.devices = "") :
    (∀ err, (startOSD c g).outcome ≠ .returned (some err)) ∧
    (∀ args ∈ newAgentCalls (startOSD c g).calls,
      args.dataDevices = g.osdDataDeviceFilter ∧ args.usingDeviceFilter = true) ∧
    (∀ clientset rookClientset locArgs,
      c.getClientset = .ok (clientset, rookClientset) →
      c.FormatLocation g.cfg.location g.cfg.nodeName = .ok locArgs →
      ∃ args, newAgentCalls (startOSD c g).calls = [args] ∧
        args.dataDevices = g.osdDataDeviceFilter ∧ args.usingDeviceFilter = true) := by
  have hsel : g.osdDataDeviceFilter = "" ∨ g.cfg.devices = "" := Or.inr hd
  have hrun : ∀ clientset rookClientset locArgs,
      c.getClientset = .ok (clientset, rookClientset) →
      c.FormatLocation g.cfg.location g.cfg.nodeName = .ok locArgs →
      ∃ args, newAgentCalls (startOSD c g).calls = [args] ∧
        args.dataDevices = g.osdDataDeviceFilter ∧ args.usingDeviceFilter = true := by
    intro clientset rookClientset locArgs hcs hloc
    obtain ⟨args, -, hdev, huse, -, -, -, -, -, -, -, -, hcalls, -, -⟩ :=
      startOSD_proceeds c g clientset rookClientset locArgs hreq hsel hcs hloc
    refine ⟨args, ?_, ?_, ?_⟩
    · rw [hcalls]; rfl
    · rw [hdev, if_neg hf]
    · rw [huse, if_neg hf]
  refine ⟨startOSD_no_error_returned c g hreq hsel, ?_, hrun⟩
  intro args hargs
  rcases startOSD_paths c g with ⟨hcalls, -, -⟩ | ⟨-, -, ⟨err, hcs⟩ | ⟨cs, rcs, hcs, hloc⟩⟩
  · rw [hcalls] at hargs; simp [newAgentCalls] at hargs
  · rw [startOSD_clientset_failed c g err hreq hsel hcs] at hargs
    simp [newAgentCalls] at hargs
  · rcases hloc with ⟨err, hloc⟩ | ⟨locArgs, hloc⟩
    · rw [startOSD_location_failed c g cs rcs err hreq hsel hcs hloc] at hargs
      simp [newAgentCalls] at hargs
    · obtain ⟨args0, hcalls, hdev, huse⟩ := hrun cs rcs locArgs hcs hloc
      rw [hcalls] at hargs
      simp at hargs
      subst hargs
      exact ⟨hdev, huse⟩

/-- C2 at `--data-device-filter all` without `--data-devices`. -/
theorem startOSD_filter_mode_witness :
    ∃ args, newAgentCalls (startOSD okCollaborators (globalsOf allFlagsSet "" "all" false)).calls
        = [args] ∧
      args.dataDevices = "all" ∧ args.usingDeviceFilter = true :=
  (startOSD_filter_mode okCollaborators (globalsOf allFlagsSet "" "all" false)
    (by decide) (by decide) (by decide)).2.2 "clientset" "rookClientset"
    ["region=us-east", "host=node1", "root=default"] rfl rfl

/-- C3.  With an empty filter, once the required-flag check has passed: `startOSD` returns
no error, every call of `osd.NewAgent` gets `cfg.devices` unchanged (empty or not) as
`dataDevices` with `usingDeviceFilter = false`, and when the client-set provider and the
location formatter succeed `osd.NewAgent` is called exactly once, with that selection, and
`osd.Run` exactly once, with the agent so built. -/
theorem startOSD_explicit_list_mode
    (c : Collaborators Clientset RookClientset Rest Monitors KVStore Agent)
    (g : Globals Monitors)
    (hreq : c.VerifyRequiredFlags g.osdCmdFlags required = none)
    (hf : g.osdDataDeviceFilter = "") :
    (∀ err, (startOSD c g).outcome ≠ .returned (some err)) ∧
    (∀ args ∈ newAgentCalls (startOSD c g).calls,
      args.dataDevices = g.cfg.devices ∧ args.usingDeviceFilter = false) ∧
    (∀ clientset rookClientset locArgs,
      c.getClientset = .ok (clientset, rookClientset) →
      c.FormatLocation g.cfg.location g.cfg.nodeName = .ok locArgs →
      ∃ args, newAgentCalls (startOSD c g).calls = [args] ∧
        args.dataDevices = g.cfg.devices ∧ args.usingDeviceFilter = false ∧
        runCalls (startOSD c g).calls = [(args.context, c.NewAgent args)]) := by
  have hsel : g.osdDataDeviceFilter = "" ∨ g.cfg.devices = "" := Or.inl hf
  have hrun : ∀ clientset rookClientset locArgs,
      c.getClientset = .ok (clientset, rookClientset) →
      c.FormatLocation g.cfg.location g.cfg.nodeName = .ok locArgs →
      ∃ args, newAgentCalls (startOSD c g).calls = [args] ∧
        args.dataDevices = g.cfg.devices ∧ args.usingDeviceFilter = false ∧
        runCalls (startOSD c g).calls = [(args.context, c.NewAgent args)] := by
    intro clientset rookClientset locArgs hcs hloc
    obtain ⟨args, -, hdev, huse, -, -, -, -, -, -, -, -, hcalls, -, -⟩ :=
      startOSD_proceeds c g clientset rookClientset locArgs hreq hsel hcs hloc
    refine ⟨args, ?_, ?_, ?_, ?_⟩
    · rw [hcalls]; rfl
    · rw [hdev, if_pos hf]
    · rw [huse, if_pos hf]
    · rw [hcalls]; rfl
  refine ⟨startOSD_no_error_returned c g hreq hsel, ?_, hrun⟩
  intro args hargs
  rcases startOSD_paths c g with ⟨hcalls, -, -⟩ | ⟨-, -, ⟨err, hcs⟩ | ⟨cs, rcs, hcs, hloc⟩⟩
  · rw [hcalls] at hargs; simp [newAgentCalls] at hargs
  · rw [startOSD_clientset_failed c g err hreq hsel hcs] at hargs
    simp [newAgentCalls] at hargs
  · rcases hloc with ⟨err, hloc⟩ | ⟨locArgs, hloc⟩
    · rw [startOSD_location_failed c g cs rcs err hreq hsel hcs hloc] at hargs
      simp [newAgentCalls] at hargs
    · obtain ⟨args0, hcalls, hdev, huse, -⟩ := hrun cs rcs locArgs hcs hloc
      rw [hcalls] at hargs
      simp at hargs
      subst hargs
      exact ⟨hdev, huse⟩

/-- C3 at `--data-devices /dev/sdb,/dev/sdc` without `--data-device-filter`. -/
theorem startOSD_explicit_list_mode_witness :
    ∃ args,
      newAgentCalls (startOSD okCollaborators
        (globalsOf allFlagsSet "/dev/sdb,/dev/sdc" "" false)).calls = [args] ∧
      args.dataDevices = "/dev/sdb,/dev/sdc" ∧ args.usingDeviceFilter = false ∧
      runCalls (startOSD okCollaborators
        (globalsOf allFlagsSet "/dev/sdb,/dev/sdc" "" false)).calls
        = [(args.context, okCollaborators.NewAgent args)] :=
  (startOSD_explicit_list_mode okCollaborators
    (globalsOf allFlagsSet "/dev/sdb,/dev/sdc" "" false)
    (by decide) (by decide)).2.2 "clientset" "rookClientset"
    ["region=us-east", "host=node1", "root=default"] rfl rfl

/-! ## Downstream steps -/

/-- C6.  Once the required-flag check and device resolution have succeeded: an error of
the client-set provider or of `client.FormatLocation` ends the run in `terminateFatal`
with neither `osd.NewAgent` nor `osd.Run` called; an error of `osd.Run` ends the run in
`terminateFatal` with that error; and `startOSD` returns `nil` only if the client-set
provider, `client.FormatLocation` and the one call of `osd.Run` all succeeded. -/
theorem startOSD_downstream_errors_fatal
    (c : Collaborators Clientset RookClientset Rest Monitors KVStore Agent)
    (g : Globals Monitors)
    (hreq : c.VerifyRequiredFlags g.osdCmdFlags required = none)
    (hsel : g.osdDataDeviceFilter = "" ∨ g.cfg.devices = "") :
    (∀ err, c.getClientset = .error err →
      (startOSD c g).outcome = .fatal (.ErrorfV "failed to init k8s client. %+v\n" err) ∧
      newAgentCalls (startOSD c g).calls = [] ∧ runCalls (startOSD c g).calls = []) ∧
    (∀ err, c.FormatLocation g.cfg.location g.cfg.nodeName = .error err →
      (∃ reason, (startOSD c g).outcome = .fatal reason) ∧
      ((∃ p, c.getClientset = .ok p) →
        (startOSD c g).outcome = .fatal (.ErrorfV "invalid location. %+v\n" err)) ∧
      newAgentCalls (startOSD c g).calls = [] ∧ runCalls (startOSD c g).calls = []) ∧
    (∀ context agent err, Call.Run context agent ∈ (startOSD c g).calls →
      c.Run context agent = some err → (startOSD c g).outcome = .fatal err) ∧
    ((startOSD c g).outcome = .returned none →
      (∃ p, c.getClientset = .ok p) ∧
      (∃ locArgs, c.FormatLocation g.cfg.location g.cfg.nodeName = .ok locArgs) ∧
      ∃ context agent, runCalls (startOSD c g).calls = [(context, agent)] ∧
        c.Run context agent = none) := by
  refine ⟨?_, ?_, ?_, ?_⟩
  · intro err hcs
    rw [startOSD_clientset_failed c g err hreq hsel hcs]
    exact ⟨rfl, rfl, rfl⟩
  · intro err hloc
    cases hcs : c.getClientset with
    | error e =>
      rw [startOSD_clientset_failed c g e hreq hsel hcs]
      refine ⟨⟨_, rfl⟩, ?_, rfl, rfl⟩
      rintro ⟨p, hp⟩
      cases hp
    | ok p =>
      rw [startOSD_location_failed c g p.1 p.2 err hreq hsel hcs hloc]
      exact ⟨⟨_, rfl⟩, fun _ => rfl, rfl, rfl⟩
  · intro context agent err hmem hrun
    cases hcs : c.getClientset with
    | error e =>
      rw [startOSD_clientset_failed c g e hreq hsel hcs] at hmem
      simp at hmem
    | ok p =>
      cases hloc : c.FormatLocation g.cfg.location g.cfg.nodeName with
      | error e =>
        rw [startOSD_location_failed c g p.1 p.2 e hreq hsel hcs hloc] at hmem
        simp at hmem
      | ok locArgs =>
        obtain ⟨args, -, -, -, -, -, -, -, -, -, -, -, hcalls, -, hout⟩ :=
          startOSD_proceeds c g p.1 p.2 locArgs hreq hsel hcs hloc
        rw [hcalls] at hmem
        simp at hmem
        obtain ⟨hctx, hagent⟩ := hmem
        rw [hout, ← hctx, ← hagent, hrun]
  · intro hnil
    cases hcs : c.getClientset with
    | error e =>
      rw [startOSD_clientset_failed c g e hreq hsel hcs] at hnil
      simp at hnil
    | ok p =>
      cases hloc : c.FormatLocation g.cfg.location g.cfg.nodeName with
      | error e =>
        rw [startOSD_location_failed c g p.1 p.2 e hreq hsel hcs hloc] at hnil
        simp at hnil
      | ok locArgs =>
        obtain ⟨args, -, -, -, -, -, -, -, -, -, -, -, hcalls, -, hout⟩ :=
          startOSD_proceeds c g p.1 p.2 locArgs hreq hsel hcs hloc
        refine ⟨⟨p, rfl⟩, ⟨locArgs, rfl⟩, args.context, c.NewAgent args, ?_, ?_⟩
        · rw [hcalls]; rfl
        · rw [hout] at hnil
          cases hrun : c.Run args.context (c.NewAgent args) with
          | none => rfl
          | some e => rw [hrun] at hnil; simp at hnil

/-- C6 at a run in which `client.FormatLocation` fails. -/
theorem startOSD_downstream_errors_fatal_witness :
    (∃ reason,
      (startOSD (collaboratorsOf (.ok ("clientset", "rookClientset"))
        (.error (.Errorf "invalid crush field")) none)
        (globalsOf allFlagsSet "/dev/sdb" "" false)).outcome = .fatal reason) ∧
    ((∃ p, (collaboratorsOf (.ok ("clientset", "rookClientset"))
        (.error (.Errorf "invalid crush field")) none).getClientset = .ok p) →
      (startOSD (collaboratorsOf (.ok ("clientset", "rookClientset"))
        (.error (.Errorf "invalid crush field")) none)
        (globalsOf allFlagsSet "/dev/sdb" "" false)).outcome
        = .fatal (.ErrorfV "invalid location. %+v\n" (.Errorf "invalid crush field"))) ∧
    newAgentCalls (startOSD (collaboratorsOf (.ok ("clientset", "rookClientset"))
        (.error (.Errorf "invalid crush field")) none)
        (globalsOf allFlagsSet "/dev/sdb" "" false)).calls = [] ∧
    runCalls (startOSD (collaboratorsOf (.ok ("clientset", "rookClientset"))
        (.error (.Errorf "invalid crush field")) none)
        (globalsOf allFlagsSet "/dev/sdb" "" false)).calls = [] :=
  (startOSD_downstream_errors_fatal
    (collaboratorsOf (.ok ("clientset", "rookClientset"))
      (.error (.Errorf "invalid crush field")) none)
    (globalsOf allFlagsSet "/dev/sdb" "" false)
    (by decide) (Or.inl (by decide))).2.1 (.Errorf "invalid crush field") rfl

/-- C8, as stated, fails: with `--mon-endpoints abc`, which parses to an empty monitor
list, and every other step succeeding, `startOSD` stores the empty list, constructs the
agent with it, invokes `osd.Run` and returns `nil`. -/
theorem empty_monitor_list_proceeds :
    okCollaborators.ParseMonEndpoints (globalsOf monEndpointsAbc "/dev/sdb" "" false).cfg.monEndpoints
      = [] ∧
    (startOSD okCollaborators (globalsOf monEndpointsAbc "/dev/sdb" "" false)).clusterInfo.Monitors
      = [] ∧
    (∃ args,
      newAgentCalls (startOSD okCollaborators (globalsOf monEndpointsAbc "/dev/sdb" "" false)).calls
        = [args] ∧
      args.clusterInfo.Monitors = [] ∧
      runCalls (startOSD okCollaborators (globalsOf monEndpointsAbc "/dev/sdb" "" false)).calls
        = [(args.context, okCollaborators.NewAgent args)]) ∧
    (startOSD okCollaborators (globalsOf monEndpointsAbc "/dev/sdb" "" false)).outcome
      = .returned none := by
  refine ⟨by decide, by decide, ⟨_, rfl, by decide, by decide⟩, by decide⟩

/-- C8, amended.  `startOSD` does not look at the monitor list: whatever
`mon.ParseMonEndpoints` yields for `cfg.monEndpoints`, an empty list included, once the
required-flag check, device resolution, the client-set provider and `client.FormatLocation`
have succeeded `startOSD` stores the parse result in `clusterInfo.Monitors`, constructs the
agent with it and invokes `osd.Run` on that agent. -/
theorem startOSD_monitors_unchecked
    (c : Collaborators Clientset RookClientset Rest Monitors KVStore Agent)
    (g : Globals Monitors) (clientset : Clientset) (rookClientset : RookClientset)
    (locArgs : List String)
    (hreq : c.VerifyRequiredFlags g.osdCmdFlags required = none)
    (hsel : g.osdDataDeviceFilter = "" ∨ g.cfg.devices = "")
    (hcs : c.getClientset = .ok (clientset, rookClientset))
    (hloc : c.FormatLocation g.cfg.location g.cfg.nodeName = .ok locArgs) :
    (startOSD c g).clusterInfo.Monitors = c.ParseMonEndpoints g.cfg.monEndpoints ∧
    ∃ args, newAgentCalls (startOSD c g).calls = [args] ∧
      args.clusterInfo.Monitors = c.ParseMonEndpoints g.cfg.monEndpoints ∧
      runCalls (startOSD c g).calls = [(args.context, c.NewAgent args)] := by
  obtain ⟨args, -, -, -, -, -, -, -, -, hci, -, -, hcalls, hfin, -⟩ :=
    startOSD_proceeds c g clientset rookClientset locArgs hreq hsel hcs hloc
  refine ⟨?_, args, ?_, ?_, ?_⟩
  · rw [hfin, hci]
  · rw [hcalls]; rfl
  · rw [hci]
  · rw [hcalls]; rfl

/-- C8, amended, at `--mon-endpoints abc`. -/
theorem startOSD_monitors_unchecked_witness :
    (startOSD okCollaborators (globalsOf monEndpointsAbc "" "sd.*" false)).clusterInfo.Monitors
      = okCollaborators.ParseMonEndpoints (globalsOf monEndpointsAbc "" "sd.*" false).cfg.monEndpoints ∧
    ∃ args,
      newAgentCalls (startOSD okCollaborators (globalsOf monEndpointsAbc "" "sd.*" false)).calls
        = [args] ∧
      args.clusterInfo.Monitors
        = okCollaborators.ParseMonEndpoints
            (globalsOf monEndpointsAbc "" "sd.*" false).cfg.monEndpoints ∧
      runCalls (startOSD okCollaborators (globalsOf monEndpointsAbc "" "sd.*" false)).calls
        = [(args.context, okCollaborators.NewAgent args)] :=
  startOSD_monitors_unchecked okCollaborators (globalsOf monEndpointsAbc "" "sd.*" false)
    "clientset" "rookClientset" ["region=us-east", "host=node1", "root=default"]
    (by decide) (Or.inr (by decide)) rfl rfl

/-- C10.  The `forceFormat` argument of every call of `osd.NewAgent` is `false`, and a run
with `cfg.forceFormat` set to any value calls `osd.NewAgent` with the same arguments as
the run with the value unchanged, the collaborators being the same. -/
theorem startOSD_forceFormat_ignored
    (c : Collaborators Clientset RookClientset Rest Monitors KVStore Agent)
    (g : Globals Monitors) (b : Bool) :
    (∀ args ∈ newAgentCalls (startOSD c g).calls, args.forceFormat = false) ∧
    newAgentCalls (startOSD c { g with cfg := { g.cfg with forceFormat := b } }).calls
      = newAgentCalls (startOSD c g).calls := by
  refine ⟨?_, rfl⟩
  intro args hargs
  rcases startOSD_paths c g with
    ⟨hcalls, -, -⟩ | ⟨hreq, hsel, ⟨err, hcs⟩ | ⟨cs, rcs, hcs, hloc⟩⟩
  · rw [hcalls] at hargs; simp [newAgentCalls] at hargs
  · rw [startOSD_clientset_failed c g err hreq hsel hcs] at hargs
    simp [newAgentCalls] at hargs
  · rcases hloc with ⟨err, hloc⟩ | ⟨locArgs, hloc⟩
    · rw [startOSD_location_failed c g cs rcs err hreq hsel hcs hloc] at hargs
      simp [newAgentCalls] at hargs
    · obtain ⟨args0, -, -, -, -, -, hff, -, -, -, -, -, hcalls, -, -⟩ :=
        startOSD_proceeds c g cs rcs locArgs hreq hsel hcs hloc
      rw [hcalls] at hargs
      simp [newAgentCalls] at hargs
      subst hargs
      exact hff

/-! ## The required-flag check -/

theorem VerifyRequiredFlags_eq_none_iff (flagValue : String → String)
    (requiredFlags : List String) :
    VerifyRequiredFlags flagValue requiredFlags = none
      ↔ ∀ name ∈ requiredFlags, flagValue name ≠ "" := by
  unfold VerifyRequiredFlags
  split
  · rename_i h
    simp [List.filter_eq_nil_iff] at h
    simpa using h
  · rename_i h
    simp only [false_iff, reduceCtorEq]
    intro hall
    apply h
    simpa [List.filter_eq_nil_iff] using hall

theorem VerifyRequiredFlags_of_missing (flagValue : String → String)
    (requiredFlags : List String) (name : String) (hmem : name ∈ requiredFlags)
    (hempty : flagValue name = "") :
    VerifyRequiredFlags flagValue requiredFlags
      = some (.MissingConfiguration (requiredFlags.filter (fun n => flagValue n = ""))) := by
  unfold VerifyRequiredFlags
  split
  · rename_i h
    have : name ∈ requiredFlags.filter (fun n => flagValue n = "") := by
      simp [List.mem_filter, hmem, hempty]
    rw [h] at this
    simp at this
  · rfl

theorem startOSD_calls_head
    (c : Collaborators Clientset RookClientset Rest Monitors KVStore Agent)
    (g : Globals Monitors) :
    (startOSD c g).calls.head? = some (Call.VerifyRequiredFlags required) := by
  rcases startOSD_paths c g with
    ⟨hcalls, -, -⟩ | ⟨hreq, hsel, ⟨err, hcs⟩ | ⟨cs, rcs, hcs, hloc⟩⟩
  · rw [hcalls]; rfl
  · rw [startOSD_clientset_failed c g err hreq hsel hcs]; rfl
  · rcases hloc with ⟨err, hloc⟩ | ⟨locArgs, hloc⟩
    · rw [startOSD_location_failed c g cs rcs err hreq hsel hcs hloc]; rfl
    · obtain ⟨args, -, -, -, -, -, -, -, -, -, -, -, hcalls, -, -⟩ :=
        startOSD_proceeds c g cs rcs locArgs hreq hsel hcs hloc
      rw [hcalls]; rfl

/-- C4.  With the required-flag check as the spec describes it, `startOSD` first calls the
check with exactly the seven names cluster-name, mon-endpoints, mon-secret, admin-secret,
node-name, public-ipv4 and private-ipv4; when one of the seven flags is empty it returns
the required-flag error whose names are exactly the empty ones among the seven; and when
all seven are non-empty the check succeeds and no required-flag error is returned. -/
theorem startOSD_required_flags
    (c : Collaborators Clientset RookClientset Rest Monitors KVStore Agent)
    (g : Globals Monitors)
    (hver : c.VerifyRequiredFlags = VerifyRequiredFlags) :
    (startOSD c g).calls.head?
      = some (Call.VerifyRequiredFlags
          ["cluster-name", "mon-endpoints", "mon-secret", "admin-secret", "node-name",
           "public-ipv4", "private-ipv4"]) ∧
    ((∃ name ∈ ["cluster-name", "mon-endpoints", "mon-secret", "admin-secret", "node-name",
                "public-ipv4", "private-ipv4"], g.osdCmdFlags name = "") →
      ∃ missing, (startOSD c g).outcome = .returned (some (.MissingConfiguration missing)) ∧
        ∀ name, name ∈ missing
          ↔ (name ∈ ["cluster-name", "mon-endpoints", "mon-secret", "admin-secret",
                     "node-name", "public-ipv4", "private-ipv4"] ∧
             g.osdCmdFlags name = "")) ∧
    ((∀ name ∈ ["cluster-name", "mon-endpoints", "mon-secret", "admin-secret", "node-name",
                "public-ipv4", "private-ipv4"], g.osdCmdFlags name ≠ "") →
      c.VerifyRequiredFlags g.osdCmdFlags
          ["cluster-name", "mon-endpoints", "mon-secret", "admin-secret", "node-name",
           "public-ipv4", "private-ipv4"] = none ∧
      ∀ missing, (startOSD c g).outcome ≠ .returned (some (.MissingConfiguration missing))) := by
  refine ⟨startOSD_calls_head c g, ?_, ?_⟩
  · rintro ⟨name, hmem, hempty⟩
    have hreq : c.VerifyRequiredFlags g.osdCmdFlags required
        = some (.MissingConfiguration (required.filter (fun n => g.osdCmdFlags n = ""))) := by
      rw [hver]
      exact VerifyRequiredFlags_of_missing g.osdCmdFlags required name hmem hempty
    refine ⟨required.filter (fun n => g.osdCmdFlags n = ""), ?_, ?_⟩
    · rw [startOSD_required_failed c g _ hreq]
    · intro n
      simp [List.mem_filter, required]
  · intro hall
    have hreq : c.VerifyRequiredFlags g.osdCmdFlags required = none := by
      rw [hver]
      exact (VerifyRequiredFlags_eq_none_iff g.osdCmdFlags required).2 hall
    refine ⟨hreq, ?_⟩
    intro missing
    by_cases hsel : g.osdDataDeviceFilter = "" ∨ g.cfg.devices = ""
    · exact startOSD_no_error_returned c g hreq hsel _
    · have hf : g.osdDataDeviceFilter ≠ "" := fun h => hsel (Or.inl h)
      have hd : g.cfg.devices ≠ "" := fun h => hsel (Or.inr h)
      rw [startOSD_conflict c g hreq hf hd]
      simp [conflictError]

/-- C4 at a flag set with `mon-secret` and `public-ipv4` missing. -/
theorem startOSD_required_flags_witness :
    ∃ missing,
      (startOSD okCollaborators (globalsOf twoFlagsMissing "/dev/sdb" "sd.*" false)).outcome
        = .returned (some (.MissingConfiguration missing)) ∧
      ∀ name, name ∈ missing
        ↔ (name ∈ ["cluster-name", "mon-endpoints", "mon-secret", "admin-secret",
                   "node-name", "public-ipv4", "private-ipv4"] ∧
           (globalsOf twoFlagsMissing "/dev/sdb" "sd.*" false).osdCmdFlags name = "") :=
  (startOSD_required_flags okCollaborators (globalsOf twoFlagsMissing "/dev/sdb" "sd.*" false)
    rfl).2.1 ⟨"mon-secret", by decide, by decide⟩

/-! ## The placement string -/

theorem joinedWithSingleSpaces_append_cons (a b : String) (rest : List String) :
    joinedWithSingleSpaces ((a ++ " " ++ b) :: rest)
      = a ++ " " ++ joinedWithSingleSpaces (b :: rest) := by
  cases rest with
  | nil => rfl
  | cons t ts => simp [joinedWithSingleSpaces, String.append_assoc]

theorem foldl_eq_joinedWithSingleSpaces (rest : List String) (first : String) :
    rest.foldl (fun b s => b ++ " " ++ s) first = joinedWithSingleSpaces (first :: rest) := by
  induction rest generalizing first with
  | nil => rfl
  | cons t ts ih =>
    rw [List.foldl_cons, ih, joinedWithSingleSpaces_append_cons]
    rfl

/-- Go's `strings.Join` with a single space as separator is the spec's joining. -/
theorem strings_Join_space (elems : List String) :
    strings.Join elems " " = joinedWithSingleSpaces elems := by
  match elems with
  | [] => rfl
  | [e] => rfl
  | e :: t :: ts => exact foldl_eq_joinedWithSingleSpaces (t :: ts) e

/-- The characters of the spec's joining: the characters of the tokens, in order, with
one space between consecutive tokens. -/
theorem joinedWithSingleSpaces_data (tokens : List String) :
    (joinedWithSingleSpaces tokens).data
      = List.intercalate " ".data (tokens.map String.data) := by
  induction tokens with
  | nil => rfl
  | cons t ts ih =>
    cases ts with
    | nil => simp [joinedWithSingleSpaces, List.intercalate]
    | cons u us =>
      simp only [joinedWithSingleSpaces, String.data_append, ih]
      simp [List.intercalate]

/-- C7.  For every token sequence `locArgs` returned by `client.FormatLocation`, the
placement string `startOSD` passes to `osd.NewAgent` is the tokens, in order, joined with
one space between consecutive tokens and nothing before or after: the empty string for no
token and the token itself for one. -/
theorem startOSD_crushLocation
    (c : Collaborators Clientset RookClientset Rest Monitors KVStore Agent)
    (g : Globals Monitors) (clientset : Clientset) (rookClientset : RookClientset)
    (locArgs : List String)
    (hreq : c.VerifyRequiredFlags g.osdCmdFlags required = none)
    (hsel : g.osdDataDeviceFilter = "" ∨ g.cfg.devices = "")
    (hcs : c.getClientset = .ok (clientset, rookClientset))
    (hloc : c.FormatLocation g.cfg.location g.cfg.nodeName = .ok locArgs) :
    ∃ args, newAgentCalls (startOSD c g).calls = [args] ∧
      args.crushLocation = joinedWithSingleSpaces locArgs ∧
      args.crushLocation.data = List.intercalate [' '] (locArgs.map String.data) ∧
      (locArgs = [] → args.crushLocation = "") ∧
      (∀ token, locArgs = [token] → args.crushLocation = token) := by
  obtain ⟨args, -, -, -, -, -, -, hcl, -, -, -, -, hcalls, -, -⟩ :=
    startOSD_proceeds c g clientset rookClientset locArgs hreq hsel hcs hloc
  have hjoin : args.crushLocation = joinedWithSingleSpaces locArgs := by
    rw [hcl, strings_Join_space]
  refine ⟨args, ?_, hjoin, ?_, ?_, ?_⟩
  · rw [hcalls]; rfl
  · rw [hjoin]; exact joinedWithSingleSpaces_data locArgs
  · intro h; rw [hjoin, h]; rfl
  · intro token h; rw [hjoin, h]; rfl

/-- C7 at the tokens `region=us-east`, `host=node1`, `root=default`. -/
theorem startOSD_crushLocation_witness :
    ∃ args,
      newAgentCalls (startOSD okCollaborators (globalsOf allFlagsSet "/dev/sdb" "" false)).calls
        = [args] ∧
      args.crushLocation
        = joinedWithSingleSpaces ["region=us-east", "host=node1", "root=default"] ∧
      args.crushLocation.data
        = List.intercalate [' ']
            (["region=us-east", "host=node1", "root=default"].map String.data) ∧
      (["region=us-east", "host=node1", "root=default"] = [] → args.crushLocation = "") ∧
      (∀ token, ["region=us-east", "host=node1", "root=default"] = [token] →
        args.crushLocation = token) :=
  startOSD_crushLocation okCollaborators (globalsOf allFlagsSet "/dev/sdb" "" false)
    "clientset" "rookClientset" ["region=us-east", "host=node1", "root=default"]
    (by decide) (Or.inl (by decide)) rfl rfl

end

end Osd
